import Mathlib

/-!
Shallow embedding of the ATS scoring core of the cv-builder repository:
the scorer in `modules/ats_checker/ats_scorer/scorers/ats_scorer.py`, the
experience-level inference and skill aggregation of
`modules/ats_checker/ats_scorer/analyzers/job_analyzer.py`, and the
word-boundary skill matcher of `ats_scorer/utils/skill_categorizer.py`.

Numeric scores are modelled over `ℚ` (every constant in the source is an
exact decimal and all operations are `+ - * / min max round`), Python
strings over Lean `String`/`List Char` (the pipeline's inputs are ASCII
text, where Python's Unicode-aware lowering/whitespace classes agree with
the ASCII versions defined here), and Python `set`s of strings over
`Finset String`.
-/

/-- Whitespace characters of the Python regex class `\s` and of `str.split()`
(ASCII range): space, tab, newline, carriage return, vertical tab, form feed. -/
def isPySpace (c : Char) : Bool :=
  c = ' ' || c = '\t' || c = '\n' || c = '\r' || c = '\x0b' || c = '\x0c'

/-- Word characters of the Python regex class `\w` (ASCII range). -/
def isWordChar (c : Char) : Bool :=
  c.isAlphanum || c = '_'

/-- ASCII lowercasing of one character, as Python `str.lower()` acts on ASCII. -/
def pyCharLower (c : Char) : Char :=
  if 'A' ≤ c ∧ c ≤ 'Z' then Char.ofNat (c.toNat + 32) else c

/-- Python's `str.lower()` (ASCII). -/
def strLower (s : String) : String :=
  ⟨s.data.map pyCharLower⟩

/-- `hasSubstr s t` is Python's substring test `s in t` on character lists. -/
def hasSubstr (s : List Char) : List Char → Bool
  | [] => s.isEmpty
  | c :: rest => s.isPrefixOf (c :: rest) || hasSubstr s rest

/-- Python's `needle in haystack` on strings. -/
def pyIn (needle haystack : String) : Bool :=
  hasSubstr needle.data haystack.data

/-- Python's `str.strip()` with no arguments: drop leading and trailing
whitespace. -/
def pyStrip (s : String) : String :=
  ⟨((s.data.dropWhile isPySpace).reverse.dropWhile isPySpace).reverse⟩

/-- Split a character list at every character satisfying `p`, keeping empty
pieces (the behaviour of Python `str.split(sep)` for a one-character `sep`
when `p` tests for `sep`). -/
def splitPredAux (p : Char → Bool) : List Char → List Char → List String
  | [], acc => [⟨acc.reverse⟩]
  | c :: rest, acc =>
    if p c then ⟨acc.reverse⟩ :: splitPredAux p rest [] else splitPredAux p rest (c :: acc)

/-- Python's `text.split('\n')`. -/
def pyLines (s : String) : List String :=
  splitPredAux (fun c => c = '\n') s.data []

/-- Python's `str.split()` with no arguments: maximal runs of
non-whitespace characters. -/
def pySplitWs (s : String) : List String :=
  (splitPredAux isPySpace s.data []).filter (fun w => w ≠ "")

/-- Python's `sep.join(l)` on character lists. -/
def joinSepChars (sep : List Char) : List (List Char) → List Char
  | [] => []
  | [x] => x
  | x :: y :: rest => x ++ sep ++ joinSepChars sep (y :: rest)

/-- Python's `sep.join(l)`. -/
def pyJoin (sep : String) (l : List String) : String :=
  ⟨joinSepChars sep.data (l.map String.data)⟩

/-- The value of a decimal digit string (`foldl` base-10 accumulation). -/
def natOfDigits (ds : List Char) : Nat :=
  ds.foldl (fun n c => n * 10 + (c.toNat - '0'.toNat)) 0

/-- Python's `int(str)` (restricted to the optional-sign decimal forms the
pipeline produces): strip whitespace, optional `+`/`-`, then a non-empty
run of digits; `none` models the `ValueError` branch. -/
def pyInt (s : String) : Option ℤ :=
  let t := (pyStrip s).data
  match t with
  | '-' :: ds => if ds ≠ [] ∧ ds.all Char.isDigit then some (-(natOfDigits ds : ℤ)) else none
  | '+' :: ds => if ds ≠ [] ∧ ds.all Char.isDigit then some (natOfDigits ds : ℤ) else none
  | ds => if ds ≠ [] ∧ ds.all Char.isDigit then some (natOfDigits ds : ℤ) else none

/-- Python 3's `round` at integer precision: round half to even. -/
def roundHalfEven (x : ℚ) : ℤ :=
  if x - ⌊x⌋ < 1/2 then ⌊x⌋
  else if 1/2 < x - ⌊x⌋ then ⌊x⌋ + 1
  else if ⌊x⌋ % 2 = 0 then ⌊x⌋ else ⌊x⌋ + 1

/-- Python's `round(x, 2)` on the exact rational value. -/
def pyRound2 (x : ℚ) : ℚ :=
  (roundHalfEven (x * 100) : ℚ) / 100

/-- Lowercased set of a Python list of strings: `set([s.lower() for s in l])`. -/
def lowerSet (l : List String) : Finset String :=
  (l.map strLower).toFinset

/-- `set([s.lower().strip() for s in l])`. -/
def lowerStripSet (l : List String) : Finset String :=
  (l.map (fun s => pyStrip (strLower s))).toFinset

/-! ## `SkillCategorizer._skill_in_text` (`ats_scorer/utils/skill_categorizer.py`)

The method builds the pattern `r'\b' + re.escape(skill.lower()) + r'\b'` and
searches it case-insensitively.  `re.escape` makes every character of the
skill literal, so the pattern matches exactly an occurrence of the
lowercased skill flanked by `\b` word boundaries; `\b` matches between two
adjacent positions exactly when one side is a `\w` character and the other
is not (the ends of the string count as non-word). -/

/-- Whether an optional adjacent character is a word character; the edge of
the string (`none`) counts as non-word for `\b`. -/
def wordish : Option Char → Bool
  | none => false
  | some c => isWordChar c

/-- The regex `\b` word-boundary test between two adjacent positions. -/
def isBoundary (a b : Option Char) : Bool :=
  wordish a != wordish b

/-- Whether the literal pattern `\b s \b` matches at the start of `t`,
where `prev` is the character just before `t` in the full text. -/
def wbMatchHere (s t : List Char) (prev : Option Char) : Bool :=
  match s with
  | [] => isBoundary prev t.head?
  | _ :: _ =>
    s.isPrefixOf t && isBoundary prev s.head? && isBoundary s.getLast? (t.drop s.length).head?

/-- `re.search` of the literal pattern `\b s \b` over the text, trying each
start position left to right. -/
def wbSearch (s : List Char) : Option Char → List Char → Bool
  | prev, [] => wbMatchHere s [] prev
  | prev, c :: rest => wbMatchHere s (c :: rest) prev || wbSearch s (some c) rest

/-- `SkillCategorizer._skill_in_text(skill, text)`: the skill occurs in the
text as a whole word/phrase, case-insensitively (the Python caller passes
lowercased text and the pattern carries `re.IGNORECASE`; lowering both
sides is the ASCII rendering of that). -/
def skill_in_text (skill text : String) : Bool :=
  wbSearch (strLower skill).data none (strLower text).data

/-! ## Data model

Typed records for the string-keyed dicts flowing between the parser, the
analyzer and the scorer.  A missing key read through `dict.get(k, default)`
is modelled by the default field value; Python truthiness of a missing /
empty string is the test against `""`. -/

/-- `resume_data['contact_info']`: each entry is `""` when the parser found
nothing (Python falsy). -/
structure ContactInfo where
  email : String := ""
  phone : String := ""
  linkedin : String := ""

/-- The resume record consumed by `ATSScorer.score`. -/
structure ResumeData where
  raw_text : String := ""
  skills : List String := []
  hard_skills : List String := []
  soft_skills : List String := []
  file_format : String := ""
  contact_info : ContactInfo := {}

/-- One entry of `job_data['keywords']['single_words']` (the scorer reads
only the `'keyword'` field). -/
structure SingleWord where
  keyword : String := ""

/-- `job_data['keywords']`. -/
structure KeywordData where
  single_words : List SingleWord := []
  phrases : List String := []

/-- `job_data['experience_required']`; `years = ""`/`level = ""` model the
analyzer's `None` (both are Python falsy). -/
structure ExperienceReq where
  years : String := ""
  level : String := ""

/-- `job_data['education_required']`. -/
structure EducationReq where
  degree_level : String := ""
  field_of_study : List String := []
  certifications : List String := []

/-- The job record consumed by `ATSScorer.score`. -/
structure JobData where
  keywords : KeywordData := {}
  required_skills : List String := []
  preferred_skills : List String := []
  required_hard_skills : List String := []
  preferred_hard_skills : List String := []
  all_hard_skills : List String := []
  required_soft_skills : List String := []
  preferred_soft_skills : List String := []
  all_soft_skills : List String := []
  job_title : String := ""
  experience_required : ExperienceReq := {}
  education_required : EducationReq := {}

/-! ## Component scores (`ATSScorer._calculate_*`) -/

/-- `ATSScorer._calculate_keyword_score`. -/
def calcKeywordScore (resume_data : ResumeData) (job_data : JobData) : ℚ :=
  let resume_text := strLower resume_data.raw_text
  let important_keywords :=
    ((job_data.keywords.single_words.take 10).map (fun w => w.keyword))
      ++ job_data.keywords.phrases.take 5
  let matched_keywords :=
    important_keywords.filter (fun k => k ≠ "" && pyIn (strLower k) resume_text)
  let score : ℚ :=
    if important_keywords ≠ [] then
      ((matched_keywords.length : ℚ) / (important_keywords.length : ℚ)) * 100
    else 50
  min score 100

/-- `ATSScorer._calculate_hard_skills_score`. -/
def calcHardSkillsScore (resume_data : ResumeData) (job_data : JobData) : ℚ :=
  let resume_hard_skills := lowerSet resume_data.hard_skills
  let required_first := lowerSet job_data.required_hard_skills
  let preferred_hard_skills := lowerSet job_data.preferred_hard_skills
  let all_job_hard_skills := lowerSet job_data.all_hard_skills
  let required_hard_skills :=
    if required_first = ∅ ∧ preferred_hard_skills = ∅ ∧ all_job_hard_skills ≠ ∅ then
      all_job_hard_skills
    else required_first
  if required_hard_skills = ∅ ∧ preferred_hard_skills = ∅ then 75
  else
    let required_score : ℚ :=
      if required_hard_skills ≠ ∅ then
        ((resume_hard_skills ∩ required_hard_skills).card : ℚ) / (required_hard_skills.card : ℚ) * 100
      else 100
    let preferred_score : ℚ :=
      if preferred_hard_skills ≠ ∅ then
        ((resume_hard_skills ∩ preferred_hard_skills).card : ℚ) / (preferred_hard_skills.card : ℚ) * 100
      else 100
    min (required_score * 0.8 + preferred_score * 0.2) 100

/-- `ATSScorer._calculate_soft_skills_score`. -/
def calcSoftSkillsScore (resume_data : ResumeData) (job_data : JobData) : ℚ :=
  let resume_soft_skills := lowerSet resume_data.soft_skills
  let required_first := lowerSet job_data.required_soft_skills
  let preferred_soft_skills := lowerSet job_data.preferred_soft_skills
  let all_job_soft_skills := lowerSet job_data.all_soft_skills
  let required_soft_skills :=
    if required_first = ∅ ∧ preferred_soft_skills = ∅ ∧ all_job_soft_skills ≠ ∅ then
      all_job_soft_skills
    else required_first
  if required_soft_skills = ∅ ∧ preferred_soft_skills = ∅ then 80
  else
    let required_score : ℚ :=
      if required_soft_skills ≠ ∅ then
        ((resume_soft_skills ∩ required_soft_skills).card : ℚ) / (required_soft_skills.card : ℚ) * 100
      else 100
    let preferred_score : ℚ :=
      if preferred_soft_skills ≠ ∅ then
        ((resume_soft_skills ∩ preferred_soft_skills).card : ℚ) / (preferred_soft_skills.card : ℚ) * 100
      else 100
    min (required_score * 0.6 + preferred_score * 0.4) 100

/-- The `title_indicators` list of `ATSScorer._extract_resume_titles`. -/
def title_indicators : List String :=
  ["software engineer", "developer", "programmer", "analyst", "manager",
   "director", "lead", "senior", "junior", "principal", "architect",
   "consultant", "specialist", "coordinator", "supervisor", "designer",
   "data scientist", "product manager", "project manager", "engineer"]

/-- `ATSScorer._extract_resume_titles`: scan the first 10 lines for any
title-indicator substring, collecting the stripped lines. -/
def extractResumeTitles (resume_text : String) : List String :=
  ((pyLines resume_text).take 10).filterMap (fun line =>
    let line_lower := strLower (pyStrip line)
    if title_indicators.any (fun ind => pyIn ind line_lower) then
      some (pyStrip line)
    else none)

/-- The `stop_words` set of `ATSScorer._extract_job_title_keywords`. -/
def title_stop_words : List String :=
  ["the", "a", "an", "and", "or", "but", "in", "on", "at", "to", "for", "of", "with", "by"]

/-- `ATSScorer._extract_job_title_keywords`. -/
def extractJobTitleKeywords (job_title : String) : List String :=
  (pySplitWs (strLower job_title)).filter
    (fun word => !title_stop_words.contains word && decide (2 < word.length))

/-- `ATSScorer._calculate_job_title_score`. -/
def calcJobTitleScore (resume_data : ResumeData) (job_data : JobData) : ℚ :=
  let resume_text := strLower resume_data.raw_text
  let job_title := strLower job_data.job_title
  if job_title = "" ∨ job_title = "unknown position" then 75
  else
    let resume_titles := extractResumeTitles resume_text
    let job_title_words := (pySplitWs job_title).toFinset
    let max_score : ℚ := resume_titles.foldl (fun acc resume_title =>
      let resume_title_words := (pySplitWs (strLower resume_title)).toFinset
      if job_title_words ≠ ∅ ∧ resume_title_words ≠ ∅ then
        max acc (((job_title_words ∩ resume_title_words).card : ℚ) / (job_title_words.card : ℚ) * 100)
      else acc) 0
    let job_title_keywords := extractJobTitleKeywords job_title
    let keyword_matches :=
      (job_title_keywords.filter (fun k => pyIn k resume_text)).length
    let max_score2 : ℚ :=
      if job_title_keywords ≠ [] then
        max max_score ((keyword_matches : ℚ) / (job_title_keywords.length : ℚ) * 100)
      else max_score
    min max_score2 100

/-! ### Experience score

`re.findall(r'(\d+)\+?\s*years?', resume_text)`: at each start position the
pattern takes a maximal run of digits, an optional `+`, a run of
whitespace, the literal `year` and an optional `s`.  No backtracking into
the digit run can ever succeed (the character after a shortened run is a
digit, which none of `\+?`, `\s*`, `y` matches), so maximal-munch is the
exact semantics; after a hit the scan resumes past the match. -/

/-- Try the years pattern at the start of `cs`; on success return the
captured number and the total number of characters consumed. -/
def tryMatchYears (cs : List Char) : Option (Nat × Nat) :=
  let ds := cs.takeWhile Char.isDigit
  if ds.isEmpty then none
  else
    let rest1 := cs.drop ds.length
    let (plusLen, rest2) :=
      match rest1 with
      | '+' :: r => (1, r)
      | _ => (0, rest1)
    let ws := rest2.takeWhile isPySpace
    let rest3 := rest2.drop ws.length
    match rest3 with
    | 'y' :: 'e' :: 'a' :: 'r' :: r4 =>
      let sLen := match r4 with | 's' :: _ => 1 | _ => 0
      some (natOfDigits ds, ds.length + plusLen + ws.length + 4 + sLen)
    | _ => none

/-- Scan for all matches of the years pattern, left to right, resuming
after each match (`re.findall`).  Every match consumes at least one
character, so `fuel = cs.length` never runs out. -/
def findYearsAux : Nat → List Char → List Nat
  | 0, _ => []
  | _, [] => []
  | fuel + 1, c :: rest =>
    match tryMatchYears (c :: rest) with
    | some (n, k) => n :: findYearsAux fuel ((c :: rest).drop k)
    | none => findYearsAux fuel rest

/-- `re.findall(r'(\d+)\+?\s*years?', text)` as the list of captured numbers. -/
def findYears (cs : List Char) : List Nat :=
  findYearsAux cs.length cs

/-- The `level_keywords` table of `ATSScorer._calculate_experience_score`
(distinct from the analyzer's table). -/
def scorer_level_keywords : List (String × List String) :=
  [("entry", ["entry level", "junior", "graduate", "intern"]),
   ("mid", ["mid level", "intermediate", "3+ years", "5+ years"]),
   ("senior", ["senior", "lead", "principal", "7+ years", "10+ years"]),
   ("executive", ["director", "vp", "chief", "head of"])]

/-- `ATSScorer._calculate_experience_score`. -/
def calcExperienceScore (resume_data : ResumeData) (job_data : JobData) : ℚ :=
  let job_exp := job_data.experience_required
  let base_score : ℚ := 70
  let resume_text := strLower resume_data.raw_text
  let exp_level := job_exp.level
  let base2 : ℚ :=
    if exp_level ≠ "" then
      match scorer_level_keywords.lookup exp_level with
      | some kws =>
        if kws.any (fun keyword => pyIn keyword resume_text) then base_score + 20 else base_score
      | none => base_score
    else base_score
  let years_required := job_exp.years
  let base3 : ℚ :=
    if years_required ≠ "" then
      let year_patterns := findYears resume_text.data
      if year_patterns ≠ [] then
        let max_years := year_patterns.foldl max 0
        match pyInt (((splitPredAux (fun c => c = '-') years_required.data []).headD "")) with
        | some required_years => if required_years ≤ (max_years : ℤ) then base2 + 10 else base2
        | none => base2
      else base2
    else base2
  min base3 100

/-- The `degree_keywords` table of `ATSScorer._calculate_education_score`. -/
def degree_keywords : List (String × List String) :=
  [("bachelor", ["bachelor", "b.s.", "b.a.", "bsc", "ba"]),
   ("master", ["master", "m.s.", "m.a.", "msc", "ma", "mba"]),
   ("phd", ["phd", "ph.d", "doctorate", "doctoral"]),
   ("associate", ["associate"])]

/-- `ATSScorer._calculate_education_score`. -/
def calcEducationScore (resume_data : ResumeData) (job_data : JobData) : ℚ :=
  let job_edu := job_data.education_required
  let resume_text := strLower resume_data.raw_text
  let score1 : ℚ := 70
  let degree_level := job_edu.degree_level
  let score2 : ℚ :=
    if degree_level ≠ "" then
      match degree_keywords.lookup degree_level with
      | some kws =>
        if kws.any (fun keyword => pyIn keyword resume_text) then score1 + 20 else score1
      | none => score1
    else score1
  let score3 : ℚ :=
    if job_edu.field_of_study.any (fun field => pyIn (strLower field) resume_text) then
      score2 + 10
    else score2
  let score4 : ℚ :=
    score3 + 5 * ((job_edu.certifications.filter (fun cert => pyIn (strLower cert) resume_text)).length : ℚ)
  min score4 100

/-- The `important_sections` list of `ATSScorer._calculate_formatting_score`. -/
def important_sections : List String := ["experience", "education", "skills"]

/-- `ATSScorer._calculate_formatting_score`. -/
def calcFormattingScore (resume_data : ResumeData) : ℚ :=
  let resume_text := resume_data.raw_text
  let file_format := resume_data.file_format
  let score1 : ℚ := 100
  let score2 : ℚ := if [".pdf", ".docx", ".doc"].contains file_format then score1 - 0 else score1 - 20
  let score3 : ℚ := if resume_text = "" ∨ resume_text.length < 100 then score2 - 30 else score2
  let score4 : ℚ := if resume_data.contact_info.email = "" then score3 - 10 else score3
  let score5 : ℚ := if resume_data.contact_info.phone = "" then score4 - 5 else score4
  let text_lower := strLower resume_text
  let score6 : ℚ := important_sections.foldl
    (fun s sec => if pyIn sec text_lower then s else s - 5) score5
  max score6 0

/-! ## Detailed feedback and recommendations -/

/-- One entry of `detailed_feedback['score_breakdown']`. -/
structure ScoreEntry where
  score : ℚ
  weight : String

/-- `detailed_feedback['score_breakdown']`. -/
structure ScoreBreakdown where
  keywords : ScoreEntry
  skills : ScoreEntry
  hard_skills : ScoreEntry
  soft_skills : ScoreEntry
  job_title : ScoreEntry
  experience : ScoreEntry
  education : ScoreEntry
  formatting : ScoreEntry

/-- The dict built by `ATSScorer._generate_detailed_feedback`. -/
structure DetailedFeedback where
  strengths : List String
  weaknesses : List String
  missing_keywords : List String
  missing_skills : List String
  missing_hard_skills : List String
  missing_soft_skills : List String
  score_breakdown : ScoreBreakdown

/-- The `skill_variations` table inside `ATSScorer._generate_detailed_feedback`. -/
def skill_variations : List (String × List String) :=
  [("javascript", ["js", "ecmascript"]),
   ("typescript", ["ts"]),
   ("react", ["reactjs", "react.js"]),
   ("angular", ["angularjs"]),
   ("node.js", ["nodejs", "node"]),
   ("html", ["html5"]),
   ("css", ["css3"]),
   ("aws", ["amazon web services"]),
   ("machine learning", ["ml"]),
   ("artificial intelligence", ["ai"])]

/-- The variation test of the missing-skills loop: either string is the
canonical form of a variation list containing the other. -/
def skillVariationMatch (skill_lower resume_skill : String) : Bool :=
  skill_variations.any (fun p =>
    (skill_lower == p.1 && p.2.contains resume_skill) ||
    (resume_skill == p.1 && p.2.contains skill_lower))

/-- The `skill_found` flag of the missing-skills loop for one required
skill: exact set membership, else for some resume skill a mutual-substring
match (for skills longer than 2 characters) or a variation-table match.
The Python loop over the set with early `break` computes exactly this
existential, so iteration order is immaterial. -/
def skillFound (all_resume_skills : Finset String) (skill_lower : String) : Bool :=
  decide (skill_lower ∈ all_resume_skills) ||
  decide (∃ resume_skill ∈ all_resume_skills,
    (((pyIn skill_lower resume_skill || pyIn resume_skill skill_lower) &&
        decide (2 < skill_lower.length)) ||
      skillVariationMatch skill_lower resume_skill) = true)

/-- `ATSScorer._generate_detailed_feedback` (called with the unrounded
component scores). -/
def generateDetailedFeedback (resume_data : ResumeData) (job_data : JobData)
    (keyword_score skills_score hard_skills_score soft_skills_score : ℚ)
    (job_title_score experience_score education_score formatting_score : ℚ) :
    DetailedFeedback :=
  let breakdown : ScoreBreakdown :=
    ⟨⟨keyword_score, "25%"⟩, ⟨skills_score, "Combined"⟩, ⟨hard_skills_score, "20%"⟩,
     ⟨soft_skills_score, "15%"⟩, ⟨job_title_score, "10%"⟩, ⟨experience_score, "20%"⟩,
     ⟨education_score, "5%"⟩, ⟨formatting_score, "5%"⟩⟩
  let strengths :=
    (if 80 ≤ keyword_score then ["Excellent keyword match with job description"] else []) ++
    (if 80 ≤ hard_skills_score then ["Strong technical/hard skills alignment"] else []) ++
    (if 80 ≤ soft_skills_score then ["Excellent soft skills match"] else []) ++
    (if 80 ≤ job_title_score then ["Strong job title alignment"] else []) ++
    (if 80 ≤ skills_score then ["Strong overall skills alignment"] else []) ++
    (if 90 ≤ formatting_score then ["ATS-friendly formatting"] else [])
  let weaknesses :=
    (if keyword_score < 60 then ["Low keyword match - consider using more terms from job description"] else []) ++
    (if hard_skills_score < 60 then ["Technical/hard skills section needs improvement"] else []) ++
    (if soft_skills_score < 60 then ["Soft skills section could be stronger"] else []) ++
    (if job_title_score < 60 then ["Job title alignment could be improved"] else []) ++
    (if experience_score < 60 then ["Experience section could be stronger"] else [])
  let resume_text := strLower resume_data.raw_text
  let missing_keywords := (job_data.keywords.single_words.take 10).filterMap (fun w =>
    if w.keyword ≠ "" ∧ ¬ (pyIn (strLower w.keyword) resume_text = true) then
      some w.keyword
    else none)
  let resume_hard_skills := lowerSet resume_data.hard_skills
  let resume_soft_skills := lowerSet resume_data.soft_skills
  let missing_hard_skills := job_data.required_hard_skills.filter
    (fun skill => decide (strLower skill ∉ resume_hard_skills))
  let missing_soft_skills := job_data.required_soft_skills.filter
    (fun skill => decide (strLower skill ∉ resume_soft_skills))
  let all_resume_skills := lowerStripSet
    (resume_data.skills ++ resume_data.hard_skills ++ resume_data.soft_skills)
  let missing_skills := job_data.required_skills.filter
    (fun skill => !skillFound all_resume_skills (pyStrip (strLower skill)))
  ⟨strengths, weaknesses, missing_keywords, missing_skills,
   missing_hard_skills, missing_soft_skills, breakdown⟩

/-- The positive fallback message of `ATSScorer._generate_recommendations`. -/
def fallbackRecommendation : String := "Your resume is well-optimized for this position!"

/-- `ATSScorer._generate_recommendations`. -/
def generateRecommendations (resume_data : ResumeData)
    (detailed_feedback : DetailedFeedback) : List String :=
  let recs1 :=
    if detailed_feedback.missing_keywords ≠ [] then
      ["Include these important keywords: " ++
        pyJoin ", " (detailed_feedback.missing_keywords.take 3)]
    else []
  let recs2 := recs1 ++
    (if detailed_feedback.missing_skills ≠ [] then
      ["Add these required skills if you have them: " ++
        pyJoin ", " (detailed_feedback.missing_skills.take 3)]
    else [])
  let scores := detailed_feedback.score_breakdown
  let recs3 := recs2 ++
    (if scores.keywords.score < 70 then
      ["Optimize your resume with more keywords from the job description"] else [])
  let recs4 := recs3 ++
    (if scores.skills.score < 70 then
      ["Expand your skills section with relevant technical and soft skills"] else [])
  let recs5 := recs4 ++
    (if scores.experience.score < 70 then
      ["Highlight relevant experience using action verbs and quantifiable achievements"] else [])
  let recs6 := recs5 ++
    (if scores.education.score < 70 then
      ["Ensure your education section clearly shows your degree and relevant coursework"] else [])
  let recs7 := recs6 ++
    (if scores.formatting.score < 80 then
      ["Use a simple, ATS-friendly format with clear section headers"] else [])
  let recs8 := recs7 ++
    (if resume_data.contact_info.linkedin = "" then ["Add your LinkedIn profile URL"] else [])
  let recs9 := if recs8 = [] then [fallbackRecommendation] else recs8
  recs9.take 5

/-! ## `ATSScorer.score` -/

/-- The `ATSScore` dataclass. -/
structure ATSScore where
  overall_score : ℚ
  keyword_score : ℚ
  skills_score : ℚ
  hard_skills_score : ℚ
  soft_skills_score : ℚ
  job_title_score : ℚ
  experience_score : ℚ
  education_score : ℚ
  formatting_score : ℚ
  detailed_feedback : DetailedFeedback
  recommendations : List String

/-- `ATSScorer.score`: the seven component scores, the weighted overall
score (weights `0.1/0.30/0.20/0.10/0.20/0.05/0.05`), the detailed
feedback, and the recommendations; every numeric field rounded to two
decimals. -/
def score (resume_data : ResumeData) (job_data : JobData) : ATSScore :=
  let keyword_score := calcKeywordScore resume_data job_data
  let hard_skills_score := calcHardSkillsScore resume_data job_data
  let soft_skills_score := calcSoftSkillsScore resume_data job_data
  let job_title_score := calcJobTitleScore resume_data job_data
  let skills_score := hard_skills_score * 0.7 + soft_skills_score * 0.3
  let experience_score := calcExperienceScore resume_data job_data
  let education_score := calcEducationScore resume_data job_data
  let formatting_score := calcFormattingScore resume_data
  let overall_score :=
    keyword_score * 0.1 +
    hard_skills_score * 0.30 +
    soft_skills_score * 0.20 +
    job_title_score * 0.10 +
    experience_score * 0.20 +
    education_score * 0.05 +
    formatting_score * 0.05
  let detailed_feedback := generateDetailedFeedback resume_data job_data
    keyword_score skills_score hard_skills_score soft_skills_score
    job_title_score experience_score education_score formatting_score
  let recommendations := generateRecommendations resume_data detailed_feedback
  ⟨pyRound2 overall_score, pyRound2 keyword_score, pyRound2 skills_score,
   pyRound2 hard_skills_score, pyRound2 soft_skills_score, pyRound2 job_title_score,
   pyRound2 experience_score, pyRound2 education_score, pyRound2 formatting_score,
   detailed_feedback, recommendations⟩

/-! ## Job analyzer (`modules/ats_checker/ats_scorer/analyzers/job_analyzer.py`) -/

/-- The `level_keywords` table of `JobAnalyzer._extract_experience_requirements`. -/
def analyzer_level_keywords : List (String × List String) :=
  [("entry", ["entry level", "junior", "associate", "fresh graduate"]),
   ("mid", ["mid level", "intermediate", "professional"]),
   ("senior", ["senior", "lead", "principal", "expert"]),
   ("executive", ["executive", "director", "vp", "vice president", "c-level"])]

/-- The experience-level inference of
`JobAnalyzer._extract_experience_requirements`: walk the table in
insertion order and return the first level any of whose keywords occurs in
the lowercased text (`None` when no level matches). -/
def extractExperienceLevel (text : String) : Option String :=
  let text_lower := strLower text
  (analyzer_level_keywords.find? (fun p =>
    p.2.any (fun keyword => pyIn keyword text_lower))).map (fun p => p.1)

/-- A `hard_skills`/`soft_skills` pair as returned by
`SkillCategorizer.categorize_skills` and
`SkillCategorizer.extract_categorized_skills_from_text`. -/
structure CategorizedSkills where
  hard_skills : List String := []
  soft_skills : List String := []

/-- The hard-skill fields of the dict built by `JobAnalyzer.analyze`, as a
function of the three categorizer results it combines
(`required_categorized`, `preferred_categorized`, `text_skills`):
`required_hard_skills` and `preferred_hard_skills` are taken verbatim, and
`all_hard_skills` is `list(set(required + preferred + text))`, modelled as
the `Finset` of the concatenation. -/
structure JobHardSkillFields where
  required_hard_skills : List String
  preferred_hard_skills : List String
  all_hard_skills : Finset String

/-- The construction of the three hard-skill fields in `JobAnalyzer.analyze`. -/
def analyzeHardSkillFields (required_categorized preferred_categorized text_skills :
    CategorizedSkills) : JobHardSkillFields :=
  ⟨required_categorized.hard_skills,
   preferred_categorized.hard_skills,
   (required_categorized.hard_skills ++ preferred_categorized.hard_skills ++
     text_skills.hard_skills).toFinset⟩

/-! ## Bound lemmas -/

/-- An intersection-over-cardinality percentage is at most 100. -/
theorem interRatio_le_100 (A B : Finset String) (hB : B ≠ ∅) :
    ((A ∩ B).card : ℚ) / (B.card : ℚ) * 100 ≤ 100 := by
  have hpos : 0 < (B.card : ℚ) := by
    have := Finset.card_pos.mpr (Finset.nonempty_iff_ne_empty.mpr hB)
    exact_mod_cast this
  have hle : ((A ∩ B).card : ℚ) ≤ (B.card : ℚ) := by
    exact_mod_cast Finset.card_le_card (Finset.inter_subset_right)
  rw [div_mul_eq_mul_div, div_le_iff hpos]
  nlinarith

/-- A matched-over-total percentage computed from a filtered list is at
most 100. -/
theorem filterRatio_le_100 (l : List String) (p : String → Bool) (hl : l ≠ []) :
    (((l.filter p).length : ℚ) / (l.length : ℚ)) * 100 ≤ 100 := by
  have hpos : 0 < (l.length : ℚ) := by
    have := List.length_pos.mpr hl
    exact_mod_cast this
  have hle : ((l.filter p).length : ℚ) ≤ (l.length : ℚ) := by
    exact_mod_cast List.length_filter_le p l
  rw [div_mul_eq_mul_div, div_le_iff hpos]
  nlinarith

/-- `roundHalfEven` stays within integer bounds enclosing its argument. -/
theorem roundHalfEven_bounds (y : ℚ) (h0 : 0 ≤ y) (h1 : y ≤ 10000) :
    0 ≤ roundHalfEven y ∧ roundHalfEven y ≤ 10000 := by
  have hf0 : (0 : ℤ) ≤ ⌊y⌋ := Int.floor_nonneg.mpr h0
  have hfley : (⌊y⌋ : ℚ) ≤ y := Int.floor_le _
  have hfle : ⌊y⌋ ≤ 10000 := by
    have h : (⌊y⌋ : ℚ) ≤ (10000 : ℚ) := le_trans hfley h1
    exact_mod_cast h
  have hup : ¬(y - (⌊y⌋ : ℚ) < 1/2) → ⌊y⌋ + 1 ≤ 10000 := by
    intro h
    push_neg at h
    have hlt : (⌊y⌋ : ℚ) < (10000 : ℚ) := by linarith
    have : ⌊y⌋ < (10000 : ℤ) := by exact_mod_cast hlt
    omega
  unfold roundHalfEven
  split_ifs with h h2 h3
  · exact ⟨hf0, hfle⟩
  · exact ⟨by omega, hup h⟩
  · exact ⟨hf0, hfle⟩
  · exact ⟨by omega, hup h⟩

/-- `pyRound2` maps `[0, 100]` into `[0, 100]`. -/
theorem pyRound2_bounds (x : ℚ) (h0 : 0 ≤ x) (h1 : x ≤ 100) :
    0 ≤ pyRound2 x ∧ pyRound2 x ≤ 100 := by
  obtain ⟨hn0, hn1⟩ := roundHalfEven_bounds (x * 100) (by linarith) (by linarith)
  unfold pyRound2
  constructor
  · apply div_nonneg _ (by norm_num)
    exact_mod_cast hn0
  · rw [div_le_iff (by norm_num : (0:ℚ) < 100)]
    have : (roundHalfEven (x * 100) : ℚ) ≤ 10000 := by exact_mod_cast hn1
    linarith

/-- A left fold whose step preserves nonnegativity of the accumulator
yields a nonnegative result. -/
theorem foldl_nonneg {β : Type} (f : ℚ → β → ℚ)
    (hf : ∀ a b, 0 ≤ a → 0 ≤ f a b) :
    ∀ (l : List β) (a : ℚ), 0 ≤ a → 0 ≤ l.foldl f a := by
  intro l
  induction l with
  | nil => intro a ha; simpa using ha
  | cons x xs ih => intro a ha; exact ih _ (hf a x ha)

/-- The keyword score lies in `[0, 100]`. -/
theorem calcKeywordScore_bounds (r : ResumeData) (j : JobData) :
    0 ≤ calcKeywordScore r j ∧ calcKeywordScore r j ≤ 100 := by
  unfold calcKeywordScore
  refine ⟨le_min ?_ (by norm_num), min_le_right _ _⟩
  split_ifs
  · positivity
  · norm_num

/-- The hard-skills score lies in `[0, 100]`. -/
theorem calcHardSkillsScore_bounds (r : ResumeData) (j : JobData) :
    0 ≤ calcHardSkillsScore r j ∧ calcHardSkillsScore r j ≤ 100 := by
  unfold calcHardSkillsScore
  dsimp only
  constructor
  · split_ifs
    all_goals first
      | exact le_min (by positivity) (by norm_num)
      | positivity
  · split_ifs
    all_goals first
      | exact min_le_right _ _
      | norm_num

/-- The soft-skills score lies in `[0, 100]`. -/
theorem calcSoftSkillsScore_bounds (r : ResumeData) (j : JobData) :
    0 ≤ calcSoftSkillsScore r j ∧ calcSoftSkillsScore r j ≤ 100 := by
  unfold calcSoftSkillsScore
  dsimp only
  constructor
  · split_ifs
    all_goals first
      | exact le_min (by positivity) (by norm_num)
      | positivity
  · split_ifs
    all_goals first
      | exact min_le_right _ _
      | norm_num

/-- The job-title score lies in `[0, 100]`. -/
theorem calcJobTitleScore_bounds (r : ResumeData) (j : JobData) :
    0 ≤ calcJobTitleScore r j ∧ calcJobTitleScore r j ≤ 100 := by
  unfold calcJobTitleScore
  dsimp only
  have hstep : ∀ (a : ℚ) (resume_title : String), 0 ≤ a →
      0 ≤ (if (pySplitWs (strLower j.job_title)).toFinset ≠ ∅ ∧
              (pySplitWs (strLower resume_title)).toFinset ≠ ∅ then
            max a ((((pySplitWs (strLower j.job_title)).toFinset ∩
                (pySplitWs (strLower resume_title)).toFinset).card : ℚ) /
              (((pySplitWs (strLower j.job_title)).toFinset.card : ℚ)) * 100)
          else a) := by
    intro a b ha
    split_ifs
    · exact le_trans ha (le_max_left _ _)
    · exact ha
  have hfold := foldl_nonneg _ hstep (extractResumeTitles (strLower r.raw_text)) 0 le_rfl
  split_ifs with h1 h2
  · norm_num
  · exact ⟨le_min (le_trans hfold (le_max_left _ _)) (by norm_num), min_le_right _ _⟩
  · exact ⟨le_min hfold (by norm_num), min_le_right _ _⟩

/-- The experience score lies in `[0, 100]` (indeed in `[70, 100]`). -/
theorem calcExperienceScore_bounds (r : ResumeData) (j : JobData) :
    0 ≤ calcExperienceScore r j ∧ calcExperienceScore r j ≤ 100 := by
  unfold calcExperienceScore
  dsimp only
  refine ⟨le_min ?_ (by norm_num), min_le_right _ _⟩
  split_ifs
  all_goals repeat' split
  all_goals norm_num

/-- The education score lies in `[0, 100]` (indeed in `[70, 100]`). -/
theorem calcEducationScore_bounds (r : ResumeData) (j : JobData) :
    0 ≤ calcEducationScore r j ∧ calcEducationScore r j ≤ 100 := by
  unfold calcEducationScore
  dsimp only
  refine ⟨le_min ?_ (by norm_num), min_le_right _ _⟩
  have hc : (0:ℚ) ≤ 5 * (((j.education_required.certifications.filter
      (fun cert => pyIn (strLower cert) (strLower r.raw_text))).length : ℚ)) := by positivity
  split_ifs
  all_goals repeat' split
  all_goals linarith

/-- Folding the per-section 5-point penalty over a list lowers the
accumulator by at most 5 per element and never raises it. -/
theorem foldl_sub5_bounds (p : String → Bool) :
    ∀ (l : List String) (a : ℚ),
      l.foldl (fun s sec => if p sec then s else s - 5) a ≤ a ∧
      a - 5 * l.length ≤ l.foldl (fun s sec => if p sec then s else s - 5) a := by
  intro l
  induction l with
  | nil => intro a; simp
  | cons x xs ih =>
    intro a
    simp only [List.foldl, List.length_cons]
    constructor
    · split_ifs
      · exact (ih a).1
      · linarith [(ih (a - 5)).1]
    · push_cast
      split_ifs
      · have h := (ih a).2; push_cast at h; linarith
      · have h := (ih (a - 5)).2; push_cast at h; linarith

/-- The formatting score lies in `[0, 100]`. -/
theorem calcFormattingScore_bounds (r : ResumeData) :
    0 ≤ calcFormattingScore r ∧ calcFormattingScore r ≤ 100 := by
  unfold calcFormattingScore
  dsimp only
  constructor
  · exact le_max_right _ _
  · rw [max_le_iff]
    refine ⟨?_, by norm_num⟩
    refine le_trans (foldl_sub5_bounds (fun sec => pyIn sec (strLower r.raw_text))
      important_sections _).1 ?_
    split_ifs
    all_goals norm_num

/-! ## Claim theorems -/

/-- C2: for every resume record and every job record, each of the seven
component scores returned by `ATSScorer.score` and the weighted
`overall_score` lie in the closed interval `[0, 100]`. -/
theorem C2_range_invariant (r : ResumeData) (j : JobData) :
    (0 ≤ (score r j).keyword_score ∧ (score r j).keyword_score ≤ 100) ∧
    (0 ≤ (score r j).hard_skills_score ∧ (score r j).hard_skills_score ≤ 100) ∧
    (0 ≤ (score r j).soft_skills_score ∧ (score r j).soft_skills_score ≤ 100) ∧
    (0 ≤ (score r j).job_title_score ∧ (score r j).job_title_score ≤ 100) ∧
    (0 ≤ (score r j).experience_score ∧ (score r j).experience_score ≤ 100) ∧
    (0 ≤ (score r j).education_score ∧ (score r j).education_score ≤ 100) ∧
    (0 ≤ (score r j).formatting_score ∧ (score r j).formatting_score ≤ 100) ∧
    (0 ≤ (score r j).overall_score ∧ (score r j).overall_score ≤ 100) := by
  obtain ⟨hk0, hk1⟩ := calcKeywordScore_bounds r j
  obtain ⟨hh0, hh1⟩ := calcHardSkillsScore_bounds r j
  obtain ⟨hs0, hs1⟩ := calcSoftSkillsScore_bounds r j
  obtain ⟨ht0, ht1⟩ := calcJobTitleScore_bounds r j
  obtain ⟨he0, he1⟩ := calcExperienceScore_bounds r j
  obtain ⟨hd0, hd1⟩ := calcEducationScore_bounds r j
  obtain ⟨hf0, hf1⟩ := calcFormattingScore_bounds r
  simp only [score]
  refine ⟨pyRound2_bounds _ hk0 hk1, pyRound2_bounds _ hh0 hh1, pyRound2_bounds _ hs0 hs1,
    pyRound2_bounds _ ht0 ht1, pyRound2_bounds _ he0 he1, pyRound2_bounds _ hd0 hd1,
    pyRound2_bounds _ hf0 hf1, pyRound2_bounds _ ?_ ?_⟩
  · linarith
  · linarith

/-- C9: for every resume record, `_calculate_formatting_score` returns at
least `20.0`: the possible penalties total at most 80, so the final
`max(score, 0.0)` floor is never binding. -/
theorem C9_formatting_floor (r : ResumeData) : 20 ≤ calcFormattingScore r := by
  unfold calcFormattingScore
  dsimp only
  refine le_trans ?_ (le_max_left _ _)
  refine le_trans ?_ (foldl_sub5_bounds (fun sec => pyIn sec (strLower r.raw_text))
    important_sections _).2
  simp only [important_sections, List.length_cons, List.length_nil]
  split_ifs
  all_goals norm_num

/-- C7: `ATSScorer.score` is deterministic — two calls on equal resume and
job records return equal `ATSScore` values (componentwise, including the
detailed feedback and the recommendations); the embedding is a pure
function, mirroring a source that reads no mutable, global, or
time-dependent state. -/
theorem C7_deterministic (r₁ r₂ : ResumeData) (j₁ j₂ : JobData)
    (hr : r₁ = r₂) (hj : j₁ = j₂) : score r₁ j₁ = score r₂ j₂ := by
  rw [hr, hj]

/-- The no-data resume record `{raw_text: "", skills: []}`. -/
def noDataResume : ResumeData := {}

/-- The empty job record `{}`. -/
def emptyJob : JobData := {}

/-- Witness for C7 at the concrete no-data input. -/
theorem C7_deterministic_witness :
    score noDataResume emptyJob = score noDataResume emptyJob :=
  C7_deterministic noDataResume noDataResume emptyJob emptyJob rfl rfl

/-- C5: `SkillCategorizer._skill_in_text` is case-insensitive whole-word
matching: `"I use Java"` contains the skill `"Java"`, while
`"I use Javascript"` does not (no substring false positive across a word
boundary). -/
theorem C5_word_boundary_matching :
    skill_in_text "Java" "I use Java" = true ∧
    skill_in_text "Java" "I use Javascript" = false := by
  decide

/-- C4: every skill in the `required_hard_skills` list or the
`preferred_hard_skills` list of the record built by `JobAnalyzer.analyze`
is a member of its `all_hard_skills` set, for all possible categorizer
results. -/
theorem C4_all_hard_skills_superset
    (required_categorized preferred_categorized text_skills : CategorizedSkills)
    (s : String)
    (h : s ∈ (analyzeHardSkillFields required_categorized preferred_categorized
          text_skills).required_hard_skills ∨
        s ∈ (analyzeHardSkillFields required_categorized preferred_categorized
          text_skills).preferred_hard_skills) :
    s ∈ (analyzeHardSkillFields required_categorized preferred_categorized
      text_skills).all_hard_skills := by
  simp only [analyzeHardSkillFields, List.mem_toFinset, List.mem_append] at *
  tauto

/-- Witness for C4 at concrete categorizer output. -/
theorem C4_all_hard_skills_superset_witness :
    ("Python" ∈ (analyzeHardSkillFields ⟨["Python"], []⟩ ⟨["SQL"], []⟩
        ⟨["Docker"], []⟩).required_hard_skills ∨
      "Python" ∈ (analyzeHardSkillFields ⟨["Python"], []⟩ ⟨["SQL"], []⟩
        ⟨["Docker"], []⟩).preferred_hard_skills) ∧
    "Python" ∈ (analyzeHardSkillFields ⟨["Python"], []⟩ ⟨["SQL"], []⟩
      ⟨["Docker"], []⟩).all_hard_skills :=
  ⟨Or.inl (by decide),
   C4_all_hard_skills_superset ⟨["Python"], []⟩ ⟨["SQL"], []⟩ ⟨["Docker"], []⟩
     "Python" (Or.inl (by decide))⟩

/-- C6: the analyzer's experience-level inference checks the fixed table
in the order entry, mid, senior, executive and returns the first hit, so
any text containing both an entry keyword and a senior keyword is
classified `entry`. -/
theorem C6_entry_checked_before_senior (text : String)
    (hentry : (["entry level", "junior", "associate", "fresh graduate"]).any
      (fun keyword => pyIn keyword (strLower text)) = true)
    (hsenior : (["senior", "lead", "principal", "expert"]).any
      (fun keyword => pyIn keyword (strLower text)) = true) :
    extractExperienceLevel text = some "entry" := by
  simp [extractExperienceLevel, analyzer_level_keywords, List.find?, hentry]

/-- Witness for C6 on a text containing both `"junior"` and `"senior"`. -/
theorem C6_entry_checked_before_senior_witness :
    extractExperienceLevel "Junior or Senior Software Engineer" = some "entry" :=
  C6_entry_checked_before_senior "Junior or Senior Software Engineer"
    (by decide) (by decide)

/-- C3: the hard-skills component — `all_hard_skills` fallback when
required and preferred are absent, the `75.0` no-data default, and
otherwise the `0.8/0.2` weighted combination of the case-insensitive
set-intersection ratios. -/
theorem C3_hard_skills_formula (r : ResumeData) (j : JobData) :
    (lowerSet j.required_hard_skills = ∅ → lowerSet j.preferred_hard_skills = ∅ →
      lowerSet j.all_hard_skills ≠ ∅ →
      calcHardSkillsScore r j =
        ((lowerSet r.hard_skills ∩ lowerSet j.all_hard_skills).card : ℚ) /
          ((lowerSet j.all_hard_skills).card : ℚ) * 100 * 0.8 + 100 * 0.2) ∧
    (lowerSet j.required_hard_skills = ∅ → lowerSet j.preferred_hard_skills = ∅ →
      lowerSet j.all_hard_skills = ∅ → calcHardSkillsScore r j = 75) ∧
    (lowerSet j.required_hard_skills ≠ ∅ ∨ lowerSet j.preferred_hard_skills ≠ ∅ →
      calcHardSkillsScore r j =
        (if lowerSet j.required_hard_skills ≠ ∅ then
          ((lowerSet r.hard_skills ∩ lowerSet j.required_hard_skills).card : ℚ) /
            ((lowerSet j.required_hard_skills).card : ℚ) * 100 else 100) * 0.8 +
        (if lowerSet j.preferred_hard_skills ≠ ∅ then
          ((lowerSet r.hard_skills ∩ lowerSet j.preferred_hard_skills).card : ℚ) /
            ((lowerSet j.preferred_hard_skills).card : ℚ) * 100 else 100) * 0.2) := by
  refine ⟨?_, ?_, ?_⟩
  · intro h1 h2 h3
    unfold calcHardSkillsScore
    dsimp only
    have hsel : (if lowerSet j.required_hard_skills = ∅ ∧ lowerSet j.preferred_hard_skills = ∅ ∧
        lowerSet j.all_hard_skills ≠ ∅ then lowerSet j.all_hard_skills
        else lowerSet j.required_hard_skills) = lowerSet j.all_hard_skills :=
      if_pos ⟨h1, h2, h3⟩
    rw [hsel, if_neg (fun hc => h3 hc.1), if_pos h3, if_neg (fun hp => hp h2)]
    have hr := interRatio_le_100 (lowerSet r.hard_skills) (lowerSet j.all_hard_skills) h3
    rw [min_eq_left (by linarith)]
  · intro h1 h2 h3
    unfold calcHardSkillsScore
    dsimp only
    have hsel : (if lowerSet j.required_hard_skills = ∅ ∧ lowerSet j.preferred_hard_skills = ∅ ∧
        lowerSet j.all_hard_skills ≠ ∅ then lowerSet j.all_hard_skills
        else lowerSet j.required_hard_skills) = lowerSet j.required_hard_skills :=
      if_neg (fun hc => hc.2.2 h3)
    rw [hsel, if_pos ⟨h1, h2⟩]
  · intro h
    unfold calcHardSkillsScore
    dsimp only
    have hsel : (if lowerSet j.required_hard_skills = ∅ ∧ lowerSet j.preferred_hard_skills = ∅ ∧
        lowerSet j.all_hard_skills ≠ ∅ then lowerSet j.all_hard_skills
        else lowerSet j.required_hard_skills) = lowerSet j.required_hard_skills :=
      if_neg (fun hc => h.elim (fun a => a hc.1) (fun b => b hc.2.1))
    rw [hsel, if_neg (fun hc => h.elim (fun a => a hc.1) (fun b => b hc.2))]
    have hrs : (if lowerSet j.required_hard_skills ≠ ∅ then
        ((lowerSet r.hard_skills ∩ lowerSet j.required_hard_skills).card : ℚ) /
          ((lowerSet j.required_hard_skills).card : ℚ) * 100 else 100) ≤ 100 := by
      split_ifs with hR
      · exact interRatio_le_100 _ _ hR
      · norm_num
    have hps : (if lowerSet j.preferred_hard_skills ≠ ∅ then
        ((lowerSet r.hard_skills ∩ lowerSet j.preferred_hard_skills).card : ℚ) /
          ((lowerSet j.preferred_hard_skills).card : ℚ) * 100 else 100) ≤ 100 := by
      split_ifs with hP
      · exact interRatio_le_100 _ _ hP
      · norm_num
    rw [min_eq_left (by linarith)]

/-- A resume with one hard skill, for exercising the hard-skills fallback. -/
def resumeC3 : ResumeData := { hard_skills := ["Python"] }

/-- A job with only `all_hard_skills` populated. -/
def jobC3 : JobData := { all_hard_skills := ["Python", "SQL"] }

/-- Witness for C3: the fallback branch at a concrete input. -/
theorem C3_hard_skills_formula_witness :
    calcHardSkillsScore resumeC3 jobC3 =
      ((lowerSet resumeC3.hard_skills ∩ lowerSet jobC3.all_hard_skills).card : ℚ) /
        ((lowerSet jobC3.all_hard_skills).card : ℚ) * 100 * 0.8 + 100 * 0.2 :=
  (C3_hard_skills_formula resumeC3 jobC3).1 (by decide) (by decide) (by decide)

/-- Keyword score at the no-data input. -/
theorem noData_keyword : calcKeywordScore noDataResume emptyJob = 50 := by
  norm_num [calcKeywordScore, noDataResume, emptyJob]

/-- Hard-skills score at the no-data input. -/
theorem noData_hard : calcHardSkillsScore noDataResume emptyJob = 75 := by
  norm_num [calcHardSkillsScore, noDataResume, emptyJob, lowerSet]

/-- Soft-skills score at the no-data input. -/
theorem noData_soft : calcSoftSkillsScore noDataResume emptyJob = 80 := by
  norm_num [calcSoftSkillsScore, noDataResume, emptyJob, lowerSet]

/-- Job-title score at the no-data input. -/
theorem noData_title : calcJobTitleScore noDataResume emptyJob = 75 := by
  norm_num [calcJobTitleScore, noDataResume, emptyJob, strLower]

/-- Experience score at the no-data input. -/
theorem noData_experience : calcExperienceScore noDataResume emptyJob = 70 := by
  norm_num [calcExperienceScore, noDataResume, emptyJob]

/-- Education score at the no-data input. -/
theorem noData_education : calcEducationScore noDataResume emptyJob = 70 := by
  norm_num [calcEducationScore, noDataResume, emptyJob]

/-- Formatting score at the no-data input: the empty `file_format` is not
one of `.pdf/.docx/.doc`, so the −20 format penalty applies on top of the
−30 empty-text, −10 email, −5 phone and −15 section penalties. -/
theorem noData_formatting : calcFormattingScore noDataResume = 20 := by
  simp +decide only [calcFormattingScore, noDataResume, important_sections, pyIn, hasSubstr,
    strLower, List.foldl]
  norm_num

/-- C1 counterexample: at the no-data input the formatting score is not
the claimed `40.0`. -/
theorem C1_counterexample_formatting :
    (score noDataResume emptyJob).formatting_score ≠ 40 := by
  simp only [score, noData_formatting]
  norm_num [pyRound2, roundHalfEven]

/-- C1 (amended): the no-data defaults of `ATSScorer.score` — keyword 50,
hard skills 75, soft skills 80, job title 75, experience 70, education 70,
and formatting 20 (the −20 penalty for the empty file format applies in
addition to the penalties the claim lists). -/
theorem C1_no_data_defaults :
    (score noDataResume emptyJob).keyword_score = 50 ∧
    (score noDataResume emptyJob).hard_skills_score = 75 ∧
    (score noDataResume emptyJob).soft_skills_score = 80 ∧
    (score noDataResume emptyJob).job_title_score = 75 ∧
    (score noDataResume emptyJob).experience_score = 70 ∧
    (score noDataResume emptyJob).education_score = 70 ∧
    (score noDataResume emptyJob).formatting_score = 20 := by
  simp only [score, noData_keyword, noData_hard, noData_soft, noData_title,
    noData_experience, noData_education, noData_formatting]
  refine ⟨?_, ?_, ?_, ?_, ?_, ?_, ?_⟩
  all_goals norm_num [pyRound2, roundHalfEven]

/-- C10: the weight labels reported in the score breakdown for keywords,
hard skills, and soft skills are the fixed strings `25%`, `20%`, `15%`,
while the overall score is computed with weights `0.1`, `0.30`, `0.20` on
those components; the labelled fractions never equal the applied weights. -/
theorem C10_breakdown_weights_mismatch (r : ResumeData) (j : JobData) :
    ((score r j).detailed_feedback.score_breakdown.keywords.weight = "25%" ∧
     (score r j).detailed_feedback.score_breakdown.hard_skills.weight = "20%" ∧
     (score r j).detailed_feedback.score_breakdown.soft_skills.weight = "15%") ∧
    ((score r j).overall_score = pyRound2
      (calcKeywordScore r j * 0.1 + calcHardSkillsScore r j * 0.30 +
       calcSoftSkillsScore r j * 0.20 + calcJobTitleScore r j * 0.10 +
       calcExperienceScore r j * 0.20 + calcEducationScore r j * 0.05 +
       calcFormattingScore r * 0.05)) ∧
    ((25 : ℚ) / 100 ≠ 0.1 ∧ (20 : ℚ) / 100 ≠ 0.30 ∧ (15 : ℚ) / 100 ≠ 0.20) := by
  refine ⟨⟨rfl, rfl, rfl⟩, rfl, by norm_num, by norm_num, by norm_num⟩

/-- The take-5-with-fallback tail of `_generate_recommendations` always
returns between 1 and 5 items. -/
theorem takeFiveFallback_length (l : List String) :
    1 ≤ ((if l = [] then [fallbackRecommendation] else l).take 5).length ∧
    ((if l = [] then [fallbackRecommendation] else l).take 5).length ≤ 5 := by
  split_ifs with h
  · simp
  · have hl : 0 < l.length := List.length_pos.mpr h
    simp only [List.length_take]
    omega

/-- `_generate_recommendations` always returns between 1 and 5 items. -/
theorem generateRecommendations_length (r : ResumeData) (fb : DetailedFeedback) :
    1 ≤ (generateRecommendations r fb).length ∧
    (generateRecommendations r fb).length ≤ 5 := by
  unfold generateRecommendations
  dsimp only
  exact takeFiveFallback_length _

/-- When no recommendation rule fires, `_generate_recommendations` returns
exactly the single positive fallback message. -/
theorem generateRecommendations_fallback (r : ResumeData) (fb : DetailedFeedback)
    (h1 : fb.missing_keywords = []) (h2 : fb.missing_skills = [])
    (h3 : 70 ≤ fb.score_breakdown.keywords.score)
    (h4 : 70 ≤ fb.score_breakdown.skills.score)
    (h5 : 70 ≤ fb.score_breakdown.experience.score)
    (h6 : 70 ≤ fb.score_breakdown.education.score)
    (h7 : 80 ≤ fb.score_breakdown.formatting.score)
    (h8 : r.contact_info.linkedin ≠ "") :
    generateRecommendations r fb = [fallbackRecommendation] := by
  unfold generateRecommendations
  have n3 : ¬(fb.score_breakdown.keywords.score < 70) := not_lt.mpr h3
  have n4 : ¬(fb.score_breakdown.skills.score < 70) := not_lt.mpr h4
  have n5 : ¬(fb.score_breakdown.experience.score < 70) := not_lt.mpr h5
  have n6 : ¬(fb.score_breakdown.education.score < 70) := not_lt.mpr h6
  have n7 : ¬(fb.score_breakdown.formatting.score < 80) := not_lt.mpr h7
  simp [h1, h2, n3, n4, n5, n6, n7, h8]

/-- C8: the recommendations list of `ATSScorer.score` always has between 1
and 5 entries, and equals the single positive fallback message when no
missing-keyword, missing-skill, threshold, or LinkedIn rule applies. -/
theorem C8_recommendation_bounds (r : ResumeData) (j : JobData) :
    (1 ≤ (score r j).recommendations.length ∧
      (score r j).recommendations.length ≤ 5) ∧
    ((score r j).detailed_feedback.missing_keywords = [] →
     (score r j).detailed_feedback.missing_skills = [] →
     70 ≤ (score r j).detailed_feedback.score_breakdown.keywords.score →
     70 ≤ (score r j).detailed_feedback.score_breakdown.skills.score →
     70 ≤ (score r j).detailed_feedback.score_breakdown.experience.score →
     70 ≤ (score r j).detailed_feedback.score_breakdown.education.score →
     80 ≤ (score r j).detailed_feedback.score_breakdown.formatting.score →
     r.contact_info.linkedin ≠ "" →
     (score r j).recommendations = [fallbackRecommendation]) := by
  constructor
  · simp only [score]
    exact generateRecommendations_length r _
  · simp only [score]
    intro h1 h2 h3 h4 h5 h6 h7 h8
    exact generateRecommendations_fallback r _ h1 h2 h3 h4 h5 h6 h7 h8

/-- A well-optimized resume for the C8 fallback witness. -/
def fallbackResume : ResumeData :=
  { raw_text := "Python developer with broad experience in education technology; skills include python, sql, and automated testing frameworks."
    skills := []
    hard_skills := []
    soft_skills := []
    file_format := ".pdf"
    contact_info := { email := "a@b.com", phone := "555-123-4567", linkedin := "linkedin.com/in/x" } }

/-- A job whose only keyword the witness resume matches. -/
def fallbackJob : JobData :=
  { keywords := { single_words := [⟨"python"⟩], phrases := [] } }

set_option maxRecDepth 40000

/-- Witness for C8: at the concrete well-optimized input every rule is
silent and the fallback message is returned alone. -/
theorem C8_recommendation_bounds_witness :
    (score fallbackResume fallbackJob).recommendations = [fallbackRecommendation] := by
  have hk : calcKeywordScore fallbackResume fallbackJob = 100 := by
    simp +decide only [calcKeywordScore, fallbackResume, fallbackJob, List.take, List.map,
      List.filter, List.length, pyIn, hasSubstr, strLower]
    norm_num
  have hh : calcHardSkillsScore fallbackResume fallbackJob = 75 := by
    norm_num [calcHardSkillsScore, fallbackResume, fallbackJob, lowerSet]
  have hs : calcSoftSkillsScore fallbackResume fallbackJob = 80 := by
    norm_num [calcSoftSkillsScore, fallbackResume, fallbackJob, lowerSet]
  have he : calcExperienceScore fallbackResume fallbackJob = 70 := by
    norm_num [calcExperienceScore, fallbackResume, fallbackJob]
  have hd : calcEducationScore fallbackResume fallbackJob = 70 := by
    norm_num [calcEducationScore, fallbackResume, fallbackJob]
  have hf : calcFormattingScore fallbackResume = 100 := by
    simp +decide only [calcFormattingScore, fallbackResume, important_sections, pyIn, hasSubstr,
      strLower, List.foldl]
    norm_num
  refine (C8_recommendation_bounds fallbackResume fallbackJob).2 ?_ ?_ ?_ ?_ ?_ ?_ ?_ (by decide)
  · simp only [score, generateDetailedFeedback]
    decide
  · simp only [score, generateDetailedFeedback]
    decide
  · simp only [score, generateDetailedFeedback]
    rw [hk]; norm_num
  · simp only [score, generateDetailedFeedback]
    rw [hh, hs]; norm_num
  · simp only [score, generateDetailedFeedback]
    rw [he]
  · simp only [score, generateDetailedFeedback]
    rw [hd]
  · simp only [score, generateDetailedFeedback]
    rw [hf]; norm_num
